import Mathlib

/-!
Shallow embedding of the cy-bee RAG core (src-tauri/src):
the document normalizer (rag/csv_loader.rs), the vector index and responder
(rag/embeddings.rs), the application state (state.rs) and the command layer
(commands/ingest.rs, commands/query.rs), together with theorems settling the
frozen claims about the natural-language specification.
-/

namespace CyBee

/-! ## Document normalizer: rag/csv_loader.rs -/

/-- Mirrors CsvDocument in rag/csv_loader.rs: a document created from a CSV or
Excel row, ready for embedding. -/
structure CsvDocument where
  id : String
  content : String
  source_file : String
  row_number : Nat
deriving Repr, DecidableEq

/-- The character class trimmed by Rust str::trim (char::is_whitespace,
the Unicode White_Space property). -/
def rustIsWhitespace (c : Char) : Bool :=
  c = ' ' || ('\x09' ≤ c && c ≤ '\x0d') || c = '\x85' || c = '\xa0' ||
  c = '\u1680' || ('\u2000' ≤ c && c ≤ '\u200a') || c = '\u2028' ||
  c = '\u2029' || c = '\u202f' || c = '\u205f' || c = '\u3000'

/-- Model of Rust str::trim: drop Unicode whitespace from both ends. -/
def rustTrim (s : String) : String :=
  ⟨((s.data.dropWhile rustIsWhitespace).reverse.dropWhile rustIsWhitespace).reverse⟩

/-- The byte class of Rust u8::is_ascii_whitespace (space, tab, LF, FF, CR),
lifted to chars: a multi-byte char has no ASCII-whitespace byte, so a char-level
test is faithful to the byte-level one. -/
def isAsciiWs (c : Char) : Bool :=
  c = ' ' || c = '\x09' || c = '\x0a' || c = '\x0c' || c = '\x0d'

/-- Mirrors has_meaningful_content in rag/csv_loader.rs: some field of the
record is non-empty and has a byte that is not ASCII whitespace. -/
def has_meaningful_content (record : List String) : Bool :=
  record.any (fun f => !f.isEmpty && f.data.any (fun c => !(isAsciiWs c)))

/-- The header-value pairs pushed by the loops of flatten_row_to_string and
flatten_excel_row_to_string: for each header position with a present value
whose trim is non-empty, the string "header: trimmed value". The Rust loop
iterates header positions i and looks up record.get(i), which is a
simultaneous traversal of the two lists stopping at the shorter one. -/
def flattenParts : List String → List String → List String
  | [], _ => []
  | _ :: _, [] => []
  | h :: hs, v :: vs =>
    if (rustTrim v).isEmpty then flattenParts hs vs
    else (h ++ ": " ++ rustTrim v) :: flattenParts hs vs

/-- Mirrors flatten_row_to_string in rag/csv_loader.rs. -/
def flatten_row_to_string (filename : String) (row_number : Nat)
    (headers record : List String) : String :=
  let parts := flattenParts headers record
  if parts.isEmpty then ""
  else "From " ++ filename ++ ", Row " ++ toString row_number ++ ": " ++
    String.intercalate ", " parts

/-- Mirrors flatten_excel_row_to_string in rag/csv_loader.rs. -/
def flatten_excel_row_to_string (filename sheet_name : String) (row_number : Nat)
    (headers values : List String) : String :=
  let parts := flattenParts headers values
  if parts.isEmpty then ""
  else "From " ++ filename ++ " [Sheet: " ++ sheet_name ++ "], Row " ++
    toString row_number ++ ": " ++ String.intercalate ", " parts

/-- The row loop of parse_csv_file: rows enumerated from row_idx, documents
numbered row_idx + 1 (1-indexed, header excluded), kept when the flattened
content is non-blank and the record has meaningful content; doc_id threads
through as the shared counter. -/
def parseCsvRows (filename : String) (headers : List String) :
    List (List String) → Nat → Nat → List CsvDocument × Nat
  | [], _, doc_id => ([], doc_id)
  | record :: rest, row_idx, doc_id =>
    let row_number := row_idx + 1
    let content := flatten_row_to_string filename row_number headers record
    if (rustTrim content).isEmpty || !(has_meaningful_content record) then
      parseCsvRows filename headers rest (row_idx + 1) doc_id
    else
      let tail := parseCsvRows filename headers rest (row_idx + 1) (doc_id + 1)
      ({ id := "doc_" ++ toString doc_id, content := content,
         source_file := filename, row_number := row_number } :: tail.1, tail.2)

/-- Mirrors parse_csv_file in rag/csv_loader.rs over the parsed shape delivered
by the csv crate: the header record and the list of data records. -/
def parse_csv_file (filename : String) (headers : List String)
    (rows : List (List String)) (doc_id : Nat) : List CsvDocument × Nat :=
  if headers.isEmpty then ([], doc_id)
  else parseCsvRows filename headers rows 0 doc_id

/-- The row loop of parse_excel_file for one sheet: rows enumerated from
row_idx, documents numbered row_idx + 2 (+1 for 0-index, +1 for the skipped
header row), kept when the flattened content is non-blank; source_file is
"filename (sheet)". -/
def parseExcelRows (filename sheet_name : String) (headers : List String) :
    List (List String) → Nat → Nat → List CsvDocument × Nat
  | [], _, doc_id => ([], doc_id)
  | values :: rest, row_idx, doc_id =>
    let row_number := row_idx + 2
    let content := flatten_excel_row_to_string filename sheet_name row_number headers values
    if (rustTrim content).isEmpty then
      parseExcelRows filename sheet_name headers rest (row_idx + 1) doc_id
    else
      let tail := parseExcelRows filename sheet_name headers rest (row_idx + 1) (doc_id + 1)
      ({ id := "doc_" ++ toString doc_id, content := content,
         source_file := filename ++ " (" ++ sheet_name ++ ")",
         row_number := row_number } :: tail.1, tail.2)

/-- One sheet of parse_excel_file: headers come from the first row; an empty
sheet, or an empty header row, yields no documents. -/
def parseSheet (filename sheet_name : String) (allRows : List (List String))
    (doc_id : Nat) : List CsvDocument × Nat :=
  match allRows with
  | [] => ([], doc_id)
  | headers :: rows =>
    if headers.isEmpty then ([], doc_id)
    else parseExcelRows filename sheet_name headers rows 0 doc_id

/-- Mirrors parse_excel_file in rag/csv_loader.rs: every sheet is processed
independently, the doc_id counter threading through all of them. -/
def parse_excel_file (filename : String) :
    List (String × List (List String)) → Nat → List CsvDocument × Nat
  | [], doc_id => ([], doc_id)
  | (sheet_name, rows) :: rest, doc_id =>
    let here := parseSheet filename sheet_name rows doc_id
    let there := parse_excel_file filename rest here.2
    (here.1 ++ there.1, there.2)

/-- A directory entry as the loader classifies it by extension: a
delimited-table file (already parsed into header and data records), a
spreadsheet workbook (list of named sheets, each a list of rows), or an
unsupported file. -/
inductive SrcFile where
  | csv (filename : String) (headers : List String) (rows : List (List String))
  | excel (filename : String) (sheets : List (String × List (List String)))
  | unsupported (filename : String)

/-- Whether the loader classifies the entry as supported. -/
def SrcFile.supported : SrcFile → Bool
  | .csv _ _ _ => true
  | .excel _ _ => true
  | .unsupported _ => false

/-- Dispatch of load_csvs_from_directory on one entry. -/
def parseFile : SrcFile → Nat → List CsvDocument × Nat
  | .csv filename headers rows, doc_id => parse_csv_file filename headers rows doc_id
  | .excel filename sheets, doc_id => parse_excel_file filename sheets doc_id
  | .unsupported _, doc_id => ([], doc_id)

/-- The directory loop of load_csvs_from_directory: extend all_documents with
each file's documents, doc_id shared across files. -/
def loadFiles : List SrcFile → Nat → List CsvDocument × Nat
  | [], doc_id => ([], doc_id)
  | f :: rest, doc_id =>
    let here := parseFile f doc_id
    let there := loadFiles rest here.2
    (here.1 ++ there.1, there.2)

/-- Mirrors load_csvs_from_directory in rag/csv_loader.rs (for an existing
directory): documents of all entries in discovery order, ids counted from 0. -/
def load_csvs_from_directory (files : List SrcFile) : List CsvDocument :=
  (loadFiles files 0).1

/-! ## Embedding index and responder: rag/embeddings.rs -/

/-- Mirrors EmbeddableDocument in rag/embeddings.rs. -/
structure EmbeddableDocument where
  id : String
  content : String
  source_file : String
  row_number : Nat
deriving Repr, DecidableEq

/-- Mirrors the From CsvDocument conversion in rag/embeddings.rs. -/
def EmbeddableDocument.ofCsvDocument (d : CsvDocument) : EmbeddableDocument :=
  { id := d.id, content := d.content, source_file := d.source_file,
    row_number := d.row_number }

/-- Mirrors VectorIndex in rag/embeddings.rs: the stored documents in insertion
order together with the similarity induced by the embedding model carried
inside the index; score q d is the similarity of document d to query q. -/
structure VectorIndex where
  docs : List EmbeddableDocument
  score : String → EmbeddableDocument → ℚ

/-- Descending-similarity order on scored documents. -/
def simGE (a b : ℚ × EmbeddableDocument) : Prop := b.1 ≤ a.1

instance : DecidableRel simGE := fun a b => inferInstanceAs (Decidable (b.1 ≤ a.1))

instance : IsTotal (ℚ × EmbeddableDocument) simGE := ⟨fun a b => le_total b.1 a.1⟩

instance : IsTrans (ℚ × EmbeddableDocument) simGE :=
  ⟨fun _ _ _ h1 h2 => le_trans h2 h1⟩

/-- Modelled from the spec: rig's InMemoryVectorStore top_n, reached through
VectorIndex.search in rag/embeddings.rs, whose implementation lives in the
rig-core crate and not in this repository. Per the spec, it ranks all stored
documents by similarity to the query embedding, higher similarity better, with
a deterministic tie-break, and returns the top k, most-similar first; the
search wrapper then discards the scores. -/
def VectorIndex.search (idx : VectorIndex) (query : String) (top_k : Nat) :
    List EmbeddableDocument :=
  (((idx.docs.map (fun d => (idx.score query d, d))).insertionSort simGE).take
    top_k).map (fun p => p.2)

/-- The context string of generate_rag_response: the contents joined with a
blank line. -/
def buildContext (docs : List EmbeddableDocument) : String :=
  String.intercalate "\n\n" (docs.map (fun d => d.content))

/-- The sources list of generate_rag_response: one citation per document. -/
def buildSources (docs : List EmbeddableDocument) : List String :=
  docs.map (fun d => d.source_file ++ ", Row " ++ toString d.row_number)

/-- The full prompt of generate_rag_response. -/
def fullPrompt (context query : String) : String :=
  "Based on the following interview data from our customer discovery research:\n\n" ++
  "---BEGIN DATA---\n" ++ context ++ "\n---END DATA---\n\n" ++
  "Question: " ++ query ++ "\n\n" ++
  "Remember: Answer ONLY based on the data provided above. If the information is not in the data, say so."

/-- A request to one of the external services; models of the commands record
the requests they issue so that claims about which service is contacted are
statements about the recorded list. -/
inductive ServiceCall where
  | embedding (query : String)
  | generation (prompt : String)
deriving Repr, DecidableEq

/-- Mirrors generate_rag_response in rag/embeddings.rs: the generation service,
modelled as the function gen from prompt to answer, is always called on the
full prompt; the result is the answer, the citation list, and the generation
request issued. The model_name selects the agent and does not change the
data flow. -/
def generate_rag_response (gen : String → String) (query : String)
    (context_docs : List EmbeddableDocument) (model_name : String) :
    (String × List String) × List ServiceCall :=
  let context := buildContext context_docs
  let sources := buildSources context_docs
  let prompt := fullPrompt context query
  let _ := model_name
  ((gen prompt, sources), [ServiceCall.generation prompt])

/-! ## Application state: state.rs -/

/-- Mirrors AppState in state.rs, with each RwLock cell read as its content;
the lock structure itself is modelled by the interleaving relation further
down. -/
structure CoordState where
  vector_index : Option VectorIndex
  selected_model : String
  data_folder : Option String
  document_count : Nat

/-- Mirrors AppState::new in state.rs. -/
def AppState.new : CoordState :=
  { vector_index := none, selected_model := "llama3",
    data_folder := none, document_count := 0 }

/-- Mirrors AppStatus in state.rs. -/
structure AppStatus where
  is_indexed : Bool
  document_count : Nat
  data_folder : Option String
  selected_model : String
deriving Repr, DecidableEq

/-- Mirrors IngestResult in state.rs. -/
structure IngestResult where
  success : Bool
  documents_ingested : Nat
  files_processed : Nat
  message : String
deriving Repr, DecidableEq

/-- Mirrors QueryResult in state.rs. -/
structure QueryResult where
  answer : String
  sources : List String
deriving Repr, DecidableEq

/-! ## Commands: commands/ingest.rs and commands/query.rs -/

/-- Mirrors get_status in commands/ingest.rs, read sequentially (no writer
interleaved between the four lock acquisitions). -/
def get_status (st : CoordState) : AppStatus :=
  { is_indexed := st.vector_index.isSome,
    document_count := st.document_count,
    data_folder := st.data_folder,
    selected_model := st.selected_model }

/-- Mirrors ingest_csvs in commands/ingest.rs for a directory parsed into
files, run without interleaving. The build parameter models a successful
VectorIndex::from_documents call (the embedding service answering); the
distinct-source count uses dedup where the code collects into a HashSet. -/
def ingest_csvs (build : List CsvDocument → VectorIndex) (st : CoordState)
    (folder_path : String) (files : List SrcFile) : CoordState × IngestResult :=
  let documents := load_csvs_from_directory files
  let doc_count := documents.length
  if doc_count = 0 then
    (st, { success := false, documents_ingested := 0, files_processed := 0,
           message := "No CSV files found or all files were empty" })
  else
    let file_count := (documents.map (fun d => d.source_file)).dedup.length
    let index := build documents
    ({ st with vector_index := some index, data_folder := some folder_path,
               document_count := doc_count },
     { success := true, documents_ingested := doc_count,
       files_processed := file_count,
       message := "Successfully indexed " ++ toString doc_count ++
         " rows from " ++ toString file_count ++ " CSV file(s)" })

/-- Mirrors TOP_K_RESULTS in commands/query.rs. -/
def TOP_K_RESULTS : Nat := 5

/-- The error string of the index check in ask_question. -/
def notIndexedMsg : String :=
  "No data has been indexed yet. Please ingest CSV files first."

/-- The fixed answer of the empty-retrieval branch in ask_question. -/
def noInfoAnswer : String :=
  "No relevant information found in the indexed data."

/-- Mirrors ask_question in commands/query.rs: fail when no index is
installed, search with TOP_K_RESULTS, short-circuit on an empty retrieval,
otherwise generate; the second component records the service requests issued
(query embedding at search, then the generation request). -/
def ask_question (gen : String → String) (st : CoordState) (query : String) :
    Except String QueryResult × List ServiceCall :=
  match st.vector_index with
  | none => (Except.error notIndexedMsg, [])
  | some index =>
    let relevant_docs := index.search query TOP_K_RESULTS
    if relevant_docs.isEmpty then
      (Except.ok { answer := noInfoAnswer, sources := [] },
       [ServiceCall.embedding query])
    else
      let res := generate_rag_response gen query relevant_docs st.selected_model
      (Except.ok { answer := res.1.1, sources := res.1.2 },
       ServiceCall.embedding query :: res.2)

/-! ## Interleaved install and status read

ingest_csvs installs the new snapshot through three separate write-lock
acquisitions (vector_index, then data_folder, then document_count) and
get_status reads through four separate read-lock acquisitions; each
acquisition is atomic, so a concurrent status read is characterised by how
many of the three install steps have completed before each of its four
reads, a monotone sequence in program order. -/

/-- The three atomic install steps of ingest_csvs, in source order. -/
def installSteps (idx : VectorIndex) (folder : String) (count : Nat) :
    List (CoordState → CoordState) :=
  [fun st => { st with vector_index := some idx },
   fun st => { st with data_folder := some folder },
   fun st => { st with document_count := count }]

/-- The shared state after the first n install steps have run. -/
def stateAfter (st : CoordState) (idx : VectorIndex) (folder : String)
    (count : Nat) (n : Nat) : CoordState :=
  ((installSteps idx folder count).take n).foldl (fun s f => f s) st

/-- The AppStatus observed by a get_status whose four reads happen after
n1, n2, n3 and n4 install steps respectively (reads in source order:
vector_index, document_count, data_folder, selected_model). -/
def observedStatus (st : CoordState) (idx : VectorIndex) (folder : String)
    (count : Nat) (n1 n2 n3 n4 : Nat) : AppStatus :=
  { is_indexed := (stateAfter st idx folder count n1).vector_index.isSome,
    document_count := (stateAfter st idx folder count n2).document_count,
    data_folder := (stateAfter st idx folder count n3).data_folder,
    selected_model := (stateAfter st idx folder count n4).selected_model }

/-! ## Spec-side counting definitions -/

/-- Spec predicate of section 8: the row has at least one non-blank
(post-trim) field. -/
def rowHasNonBlankField (record : List String) : Bool :=
  record.any (fun v => !(rustTrim v).isEmpty)

/-- The count claimed by the spec for one directory entry: qualifying data
rows across the file, or across all sheets, where a row qualifies when some
field of it is non-blank after trimming (header rows are not data rows). -/
def specRowCountOf : SrcFile → Nat
  | .csv _ _ rows => (rows.filter rowHasNonBlankField).length
  | .excel _ sheets =>
    (sheets.map (fun s => (s.2.tail.filter rowHasNonBlankField).length)).sum
  | .unsupported _ => 0

/-- The spec-claimed documents_ingested of a directory: the sum over all files
and sheets of the rows with at least one non-blank field. -/
def specRowCount (files : List SrcFile) : Nat :=
  (files.map specRowCountOf).sum

/-- Amended row predicate: at least one non-blank (post-trim) field among the
fields in a position covered by the header row (the first headers.length
fields). -/
def rowQualifiesUnderHeaders (headers record : List String) : Bool :=
  (record.take headers.length).any (fun v => !(rustTrim v).isEmpty)

/-- The amended count for one sheet: its data rows (all rows after the header
row) with a non-blank field in a header-covered position. -/
def amendedSheetCount : List (List String) → Nat
  | [] => 0
  | headers :: rows => (rows.filter (rowQualifiesUnderHeaders headers)).length

/-- The amended count for one directory entry: data rows with a non-blank
field in a header-covered position. -/
def amendedRowCountOf : SrcFile → Nat
  | .csv _ headers rows =>
    (rows.filter (rowQualifiesUnderHeaders headers)).length
  | .excel _ sheets =>
    (sheets.map (fun s => amendedSheetCount s.2)).sum
  | .unsupported _ => 0

/-- The amended documents_ingested of a directory. -/
def amendedRowCount (files : List SrcFile) : Nat :=
  (files.map amendedRowCountOf).sum

/-- 0-based indices, counted from j, of the data rows satisfying p, in
order. -/
def keptIndicesFrom (p : List String → Bool) :
    List (List String) → Nat → List Nat
  | [], _ => []
  | r :: rest, j =>
    if p r then j :: keptIndicesFrom p rest (j + 1)
    else keptIndicesFrom p rest (j + 1)

instance : Inhabited EmbeddableDocument := ⟨⟨"", "", "", 0⟩⟩

/-! ## Trim and row-selection lemmas -/

theorem isAsciiWs_imp_rust (c : Char) (h : isAsciiWs c = true) :
    rustIsWhitespace c = true := by
  unfold isAsciiWs at h
  unfold rustIsWhitespace
  simp only [Bool.or_eq_true, decide_eq_true_eq] at h ⊢
  rcases h with ((((h | h) | h) | h) | h) <;> subst h <;> decide

theorem rustTrim_eq_empty_iff (s : String) :
    rustTrim s = "" ↔ ∀ c ∈ s.data, rustIsWhitespace c = true := by
  unfold rustTrim
  constructor
  · intro h c hc
    have hdata :
        ((s.data.dropWhile rustIsWhitespace).reverse.dropWhile
          rustIsWhitespace).reverse = [] := congrArg String.data h
    rw [List.reverse_eq_nil_iff, List.dropWhile_eq_nil_iff] at hdata
    have hdrop : ∀ x ∈ s.data.dropWhile rustIsWhitespace,
        rustIsWhitespace x = true := by
      intro x hx
      exact hdata x (List.mem_reverse.mpr hx)
    rw [← List.takeWhile_append_dropWhile (p := rustIsWhitespace)
      (l := s.data)] at hc
    rcases List.mem_append.mp hc with h1 | h1
    · exact List.mem_takeWhile_imp h1
    · exact hdrop c h1
  · intro h
    have h1 : s.data.dropWhile rustIsWhitespace = [] :=
      List.dropWhile_eq_nil_iff.mpr (fun x hx => h x hx)
    rw [h1]
    rfl

theorem rustTrim_ne_empty (s : String) (c : Char) (hc : c ∈ s.data)
    (hw : rustIsWhitespace c = false) : rustTrim s ≠ "" := by
  intro h
  have hne := (rustTrim_eq_empty_iff s).mp h c hc
  rw [hw] at hne
  exact Bool.false_ne_true hne

theorem exists_nonws_of_trim_ne (s : String) (h : ¬ rustTrim s = "") :
    ∃ c ∈ s.data, rustIsWhitespace c = false := by
  by_contra hall
  push_neg at hall
  refine h ((rustTrim_eq_empty_iff s).mpr (fun c hc => ?_))
  cases hb : rustIsWhitespace c with
  | false => exact absurd hb (hall c hc)
  | true => rfl

theorem flattenParts_eq_nil_iff (hs : List String) :
    ∀ r, flattenParts hs r = [] ↔ rowQualifiesUnderHeaders hs r = false := by
  induction hs with
  | nil =>
    intro r
    simp [flattenParts, rowQualifiesUnderHeaders]
  | cons h t ih =>
    intro r
    cases r with
    | nil => simp [flattenParts, rowQualifiesUnderHeaders]
    | cons v vs =>
      by_cases hv : (rustTrim v).isEmpty
      · simp only [flattenParts, if_pos hv, rowQualifiesUnderHeaders,
          List.length_cons, List.take_succ_cons, List.any_cons,
          Bool.or_eq_false_iff]
        rw [ih vs]
        unfold rowQualifiesUnderHeaders
        simp [hv]
      · simp only [flattenParts, if_neg hv, rowQualifiesUnderHeaders,
          List.length_cons, List.take_succ_cons, List.any_cons,
          Bool.or_eq_false_iff]
        simp [hv]

theorem exists_field_of_parts_ne (hs : List String) :
    ∀ r, flattenParts hs r ≠ [] →
      ∃ v ∈ r, (rustTrim v).isEmpty = false := by
  induction hs with
  | nil => intro r h; exact absurd rfl h
  | cons h t ih =>
    intro r hr
    cases r with
    | nil => exact absurd rfl hr
    | cons v vs =>
      by_cases hv : (rustTrim v).isEmpty
      · rw [flattenParts, if_pos hv] at hr
        obtain ⟨w, hw, hwe⟩ := ih vs hr
        exact ⟨w, List.mem_cons_of_mem _ hw, hwe⟩
      · exact ⟨v, List.mem_cons_self _ _, Bool.of_not_eq_true hv⟩

theorem meaningful_of_parts_ne (hs r : List String)
    (h : flattenParts hs r ≠ []) : has_meaningful_content r = true := by
  obtain ⟨v, hvr, hv⟩ := exists_field_of_parts_ne hs r h
  have hvne : ¬ rustTrim v = "" := by
    intro h0
    rw [h0] at hv
    exact absurd hv (by decide)
  obtain ⟨c, hc, hcw⟩ := exists_nonws_of_trim_ne v hvne
  unfold has_meaningful_content
  rw [List.any_eq_true]
  refine ⟨v, hvr, ?_⟩
  have hvemp : v.isEmpty = false := by
    cases hvi : v.isEmpty with
    | false => rfl
    | true =>
      have hvv : v = "" := (String.isEmpty_iff _).mp hvi
      subst hvv
      simp at hc
  rw [hvemp]
  simp only [Bool.not_false, Bool.true_and, List.any_eq_true]
  refine ⟨c, hc, ?_⟩
  cases ha : isAsciiWs c with
  | false => rfl
  | true =>
    rw [isAsciiWs_imp_rust c ha] at hcw
    exact absurd hcw (by simp)

/-- Chars of the left part of an append are chars of the whole. -/
theorem mem_data_append_left (s t : String) (c : Char) (h : c ∈ s.data) :
    c ∈ (s ++ t).data := by
  rw [String.data_append]
  exact List.mem_append_left _ h

/-- A string starting with "From " never trims to empty. -/
theorem rustTrim_From_isEmpty_false (s : String) :
    (rustTrim ("From " ++ s)).isEmpty = false := by
  have hF : 'F' ∈ ("From " ++ s).data :=
    mem_data_append_left _ _ _ (by decide)
  have hne := rustTrim_ne_empty _ 'F' hF (by decide)
  cases he : (rustTrim ("From " ++ s)).isEmpty with
  | false => rfl
  | true => exact absurd ((String.isEmpty_iff _).mp he) hne

theorem flatten_row_trim_ne (fn : String) (n : Nat) (hs r : List String)
    (h : flattenParts hs r ≠ []) :
    (rustTrim (flatten_row_to_string fn n hs r)).isEmpty = false := by
  unfold flatten_row_to_string
  rw [if_neg (by simpa [List.isEmpty_iff] using h)]
  simp only [String.append_assoc]
  exact rustTrim_From_isEmpty_false _

theorem flatten_excel_trim_ne (fn sn : String) (n : Nat) (hs r : List String)
    (h : flattenParts hs r ≠ []) :
    (rustTrim (flatten_excel_row_to_string fn sn n hs r)).isEmpty = false := by
  unfold flatten_excel_row_to_string
  rw [if_neg (by simpa [List.isEmpty_iff] using h)]
  simp only [String.append_assoc]
  exact rustTrim_From_isEmpty_false _

theorem csv_keep_eq (fn : String) (n : Nat) (hs r : List String) :
    ((rustTrim (flatten_row_to_string fn n hs r)).isEmpty
      || !has_meaningful_content r) = !(rowQualifiesUnderHeaders hs r) := by
  by_cases hq : rowQualifiesUnderHeaders hs r
  · have hp : flattenParts hs r ≠ [] := by
      intro h0
      rw [(flattenParts_eq_nil_iff hs r).mp h0] at hq
      exact Bool.false_ne_true hq
    rw [flatten_row_trim_ne fn n hs r hp, meaningful_of_parts_ne hs r hp, hq]
    rfl
  · have hq0 : rowQualifiesUnderHeaders hs r = false :=
      Bool.of_not_eq_true hq
    have hp : flattenParts hs r = [] := (flattenParts_eq_nil_iff hs r).mpr hq0
    unfold flatten_row_to_string
    rw [if_pos (by simp [hp])]
    rw [hq0]
    rfl

theorem excel_keep_eq (fn sn : String) (n : Nat) (hs r : List String) :
    (rustTrim (flatten_excel_row_to_string fn sn n hs r)).isEmpty
      = !(rowQualifiesUnderHeaders hs r) := by
  by_cases hq : rowQualifiesUnderHeaders hs r
  · have hp : flattenParts hs r ≠ [] := by
      intro h0
      rw [(flattenParts_eq_nil_iff hs r).mp h0] at hq
      exact Bool.false_ne_true hq
    rw [flatten_excel_trim_ne fn sn n hs r hp, hq]
    rfl
  · have hq0 : rowQualifiesUnderHeaders hs r = false :=
      Bool.of_not_eq_true hq
    have hp : flattenParts hs r = [] := (flattenParts_eq_nil_iff hs r).mpr hq0
    unfold flatten_excel_row_to_string
    rw [if_pos (by simp [hp])]
    rw [hq0]
    rfl

/-! ## Row numbering and counting lemmas -/

theorem keptIndicesFrom_length (p : List String → Bool) :
    ∀ (rows : List (List String)) (j : Nat),
      (keptIndicesFrom p rows j).length = (rows.filter p).length := by
  intro rows
  induction rows with
  | nil => intro j; rfl
  | cons r rest ih =>
    intro j
    unfold keptIndicesFrom
    rw [List.filter_cons]
    by_cases hp : p r
    · rw [if_pos hp, if_pos hp, List.length_cons, List.length_cons, ih]
    · rw [if_neg hp, if_neg (by simp [hp]), ih]

theorem parseCsvRows_row_numbers (fn : String) (hs : List String) :
    ∀ (rows : List (List String)) (j id : Nat),
      (parseCsvRows fn hs rows j id).1.map CsvDocument.row_number =
        (keptIndicesFrom (rowQualifiesUnderHeaders hs) rows j).map
          (fun i => i + 1) := by
  intro rows
  induction rows with
  | nil => intro j id; rfl
  | cons r rest ih =>
    intro j id
    unfold parseCsvRows keptIndicesFrom
    simp only []
    rw [csv_keep_eq fn (j + 1) hs r]
    by_cases hq : rowQualifiesUnderHeaders hs r
    · rw [if_neg (by simp [hq]), if_pos hq, List.map_cons, List.map_cons,
        ih (j + 1) (id + 1)]
    · rw [if_pos (by simp [Bool.of_not_eq_true hq]), if_neg hq]
      exact ih (j + 1) id

theorem parseExcelRows_row_numbers (fn sn : String) (hs : List String) :
    ∀ (rows : List (List String)) (j id : Nat),
      (parseExcelRows fn sn hs rows j id).1.map CsvDocument.row_number =
        (keptIndicesFrom (rowQualifiesUnderHeaders hs) rows j).map
          (fun i => i + 2) := by
  intro rows
  induction rows with
  | nil => intro j id; rfl
  | cons r rest ih =>
    intro j id
    unfold parseExcelRows keptIndicesFrom
    simp only []
    rw [excel_keep_eq fn sn (j + 2) hs r]
    by_cases hq : rowQualifiesUnderHeaders hs r
    · rw [if_neg (by simp [hq]), if_pos hq, List.map_cons, List.map_cons,
        ih (j + 1) (id + 1)]
    · rw [if_pos (by simp [Bool.of_not_eq_true hq]), if_neg hq]
      exact ih (j + 1) id

theorem rowQualifies_nil_headers (r : List String) :
    rowQualifiesUnderHeaders [] r = false := rfl

theorem parse_csv_file_length (fn : String) (hs : List String)
    (rows : List (List String)) (id : Nat) :
    (parse_csv_file fn hs rows id).1.length =
      (rows.filter (rowQualifiesUnderHeaders hs)).length := by
  unfold parse_csv_file
  by_cases hh : hs.isEmpty
  · rw [if_pos hh]
    have hnil : hs = [] := List.isEmpty_iff.mp hh
    subst hnil
    have hfil : rows.filter (rowQualifiesUnderHeaders []) = [] := by
      apply List.filter_eq_nil_iff.mpr
      intro a _
      simp [rowQualifies_nil_headers]
    rw [hfil]
    rfl
  · rw [if_neg hh]
    have h1 := congrArg List.length (parseCsvRows_row_numbers fn hs rows 0 id)
    rw [List.length_map, List.length_map] at h1
    rw [h1, keptIndicesFrom_length]

theorem parseSheet_length (fn sn : String) (allRows : List (List String))
    (id : Nat) :
    (parseSheet fn sn allRows id).1.length = amendedSheetCount allRows := by
  cases allRows with
  | nil => rfl
  | cons hs rows =>
    show (if hs.isEmpty then (([] : List CsvDocument), id)
      else parseExcelRows fn sn hs rows 0 id).1.length =
      (rows.filter (rowQualifiesUnderHeaders hs)).length
    by_cases hh : hs.isEmpty
    · rw [if_pos hh]
      have hnil : hs = [] := List.isEmpty_iff.mp hh
      subst hnil
      have hfil : rows.filter (rowQualifiesUnderHeaders []) = [] := by
        apply List.filter_eq_nil_iff.mpr
        intro a _
        simp [rowQualifies_nil_headers]
      rw [hfil]
      rfl
    · rw [if_neg hh]
      have h1 := congrArg List.length
        (parseExcelRows_row_numbers fn sn hs rows 0 id)
      rw [List.length_map, List.length_map] at h1
      rw [h1, keptIndicesFrom_length]

theorem parse_excel_file_length (fn : String) :
    ∀ (sheets : List (String × List (List String))) (id : Nat),
      (parse_excel_file fn sheets id).1.length =
        amendedRowCountOf (SrcFile.excel fn sheets) := by
  intro sheets
  induction sheets with
  | nil => intro id; rfl
  | cons s rest ih =>
    intro id
    obtain ⟨sn, rows⟩ := s
    unfold parse_excel_file
    simp only []
    rw [List.length_append, parseSheet_length,
      ih (parseSheet fn sn rows id).2]
    show amendedSheetCount rows + amendedRowCountOf (SrcFile.excel fn rest) =
      (((sn, rows) :: rest).map (fun s => amendedSheetCount s.2)).sum
    rw [List.map_cons, List.sum_cons]
    rfl

theorem parseFile_length (f : SrcFile) (id : Nat) :
    (parseFile f id).1.length = amendedRowCountOf f := by
  cases f with
  | csv fn hs rows => exact parse_csv_file_length fn hs rows id
  | excel fn sheets => exact parse_excel_file_length fn sheets id
  | unsupported fn => rfl

theorem loadFiles_length :
    ∀ (files : List SrcFile) (id : Nat),
      (loadFiles files id).1.length = (files.map amendedRowCountOf).sum := by
  intro files
  induction files with
  | nil => intro id; rfl
  | cons f rest ih =>
    intro id
    unfold loadFiles
    simp only []
    rw [List.length_append, List.map_cons, List.sum_cons,
      parseFile_length, ih]

/-! ## Search lemmas -/

theorem search_length_le_min (idx : VectorIndex) (query : String) (k : Nat) :
    (idx.search query k).length ≤ min k idx.docs.length := by
  unfold VectorIndex.search
  rw [List.length_map, List.length_take]
  have h := (List.perm_insertionSort simGE
    (idx.docs.map (fun d => (idx.score query d, d)))).length_eq
  rw [h, List.length_map]

theorem search_scored_mem (idx : VectorIndex) (query : String) (k : Nat)
    (x : ℚ × EmbeddableDocument)
    (hx : x ∈ ((idx.docs.map (fun d => (idx.score query d, d))).insertionSort
      simGE).take k) :
    x.1 = idx.score query x.2 := by
  have hx2 : x ∈ (idx.docs.map (fun d => (idx.score query d, d))).insertionSort
      simGE := List.take_subset k _ hx
  have hx3 : x ∈ idx.docs.map (fun d => (idx.score query d, d)) :=
    (List.mem_insertionSort simGE).mp hx2
  obtain ⟨d, _, hd⟩ := List.mem_map.mp hx3
  rw [← hd]

/-! ## Claim theorems -/

/-- C10: a freshly created application state has no Index installed, document
count 0, no data folder, and selected model "llama3"; a status query on it
returns is_indexed = false, document_count = 0, data_folder = none,
selected_model = "llama3". -/
theorem C10_fresh_state_status :
    get_status AppState.new =
      { is_indexed := false, document_count := 0, data_folder := none,
        selected_model := "llama3" } := rfl

/-- C1: the claim that every concurrent status reader observes either the
entirely old or the entirely new (Index, folder, count) triple fails on the
code: ingest_csvs installs the three fields under three separate write locks,
so a get_status whose vector_index read happens before the first install step
and whose remaining reads happen after all three observes is_indexed = false
together with the new document count and folder, a status equal to neither the
old nor the new snapshot. The schedule 0, 3, 3, 3 is monotone, hence a real
program-order interleaving. -/
theorem C1_mixed_snapshot_observable :
    observedStatus AppState.new ⟨[], fun _ _ => 0⟩ "f" 3 0 3 3 3 ≠
        get_status AppState.new ∧
      observedStatus AppState.new ⟨[], fun _ _ => 0⟩ "f" 3 0 3 3 3 ≠
        get_status (stateAfter AppState.new ⟨[], fun _ _ => 0⟩ "f" 3 3) := by
  refine ⟨?_, ?_⟩ <;> intro h <;> simp [observedStatus, stateAfter,
    installSteps, get_status, AppState.new, AppStatus.mk.injEq] at h

/-- C2 counterexample: ingesting a folder that yields zero documents while an
Index from an earlier successful ingestion is installed leaves that Index
installed — the Coordinator does not end in the Empty state as the claim
requires (it also keeps the old folder and count). -/
theorem C2_counterexample :
    ((ingest_csvs (fun _ => ⟨[], fun _ _ => 0⟩)
        ⟨some ⟨[], fun _ _ => 0⟩, "llama3", some "old", 1⟩
        "newfolder" []).1.vector_index).isSome = true ∧
      (ingest_csvs (fun _ => ⟨[], fun _ _ => 0⟩)
        ⟨some ⟨[], fun _ _ => 0⟩, "llama3", some "old", 1⟩
        "newfolder" []).1.data_folder = some "old" := by
  exact ⟨rfl, rfl⟩

/-- C2 amended: for every call of the ingestion operation on a folder whose
normalization yields zero documents, the Coordinator state is left entirely
unchanged — it remains Empty if it was Empty, and keeps the previously
installed Index if one was installed — and a non-error "no data" result is
reported (an Ok result with success = false and the fixed no-data message). -/
theorem C2_amended_zero_docs_state_unchanged
    (build : List CsvDocument → VectorIndex) (st : CoordState)
    (folder : String) (files : List SrcFile)
    (h : load_csvs_from_directory files = []) :
    ingest_csvs build st folder files =
      (st, { success := false, documents_ingested := 0, files_processed := 0,
             message := "No CSV files found or all files were empty" }) := by
  unfold ingest_csvs
  simp [h]

/-- Witness for C2 amended at the empty directory and the fresh state. -/
theorem C2_amended_witness :
    ingest_csvs (fun _ => ⟨[], fun _ _ => 0⟩) AppState.new "f" [] =
      (AppState.new,
       { success := false, documents_ingested := 0, files_processed := 0,
         message := "No CSV files found or all files were empty" }) :=
  C2_amended_zero_docs_state_unchanged _ _ _ _ rfl

/-- C4: for every query whose retrieved-document sequence is empty, the
question-answering call returns the fixed "no relevant information" answer
with an empty citation sequence, and the only service request issued is the
query embedding — no generation request is made. -/
theorem C4_empty_retrieval_short_circuits
    (gen : String → String) (st : CoordState) (query : String)
    (idx : VectorIndex) (hidx : st.vector_index = some idx)
    (hsearch : idx.search query TOP_K_RESULTS = []) :
    ask_question gen st query =
      (Except.ok { answer := noInfoAnswer, sources := [] },
       [ServiceCall.embedding query]) := by
  unfold ask_question
  rw [hidx]
  simp [hsearch]

/-- Witness for C4 at an installed index over zero documents. -/
theorem C4_witness :
    ask_question (fun _ => "a")
        ⟨some ⟨[], fun _ _ => 0⟩, "llama3", none, 0⟩ "q" =
      (Except.ok { answer := noInfoAnswer, sources := [] },
       [ServiceCall.embedding "q"]) :=
  C4_empty_retrieval_short_circuits _ _ _ ⟨[], fun _ _ => 0⟩ rfl rfl

/-- C6: for every non-empty retrieved-document sequence passed to the
responder, the citation sequence has exactly one entry per retrieved document
in the same order, and the i-th citation is "source_file, Row row_number"
built from the i-th retrieved document, whatever the documents contain. -/
theorem C6_citations_index_aligned
    (gen : String → String) (query : String)
    (docs : List EmbeddableDocument) (model : String) (_hne : docs ≠ []) :
    ((generate_rag_response gen query docs model).1.2).length = docs.length ∧
      ∀ i, i < docs.length →
        ((generate_rag_response gen query docs model).1.2).getD i "" =
          (docs.getD i default).source_file ++ ", Row " ++
            toString (docs.getD i default).row_number := by
  refine ⟨by simp [generate_rag_response, buildSources], ?_⟩
  intro i hi
  simp only [generate_rag_response, buildSources]
  rw [List.getD_eq_getElem?_getD, List.getD_eq_getElem?_getD,
    List.getElem?_map]
  rw [List.getElem?_eq_getElem hi]
  rfl

/-- Witness for C6 at a one-document retrieval. -/
theorem C6_witness :
    ((generate_rag_response (fun _ => "a") "q"
        [⟨"doc_0", "c", "t.csv", 1⟩] "m").1.2).length =
      ([⟨"doc_0", "c", "t.csv", 1⟩] : List EmbeddableDocument).length ∧
      ∀ i, i < ([⟨"doc_0", "c", "t.csv", 1⟩] : List EmbeddableDocument).length →
        ((generate_rag_response (fun _ => "a") "q"
            [⟨"doc_0", "c", "t.csv", 1⟩] "m").1.2).getD i "" =
          (([⟨"doc_0", "c", "t.csv", 1⟩] :
              List EmbeddableDocument).getD i default).source_file ++
            ", Row " ++
            toString ((([⟨"doc_0", "c", "t.csv", 1⟩] :
              List EmbeddableDocument).getD i default)).row_number :=
  C6_citations_index_aligned (fun _ => "a") "q" _ "m" (by decide)

/-- C7: for every installed Index, query string and k, search returns at most
min(k, number of stored documents) documents, ordered most-similar first
(similarity scores non-increasing along the result), and for k = 0 it returns
the empty sequence. -/
theorem C7_search_topk (idx : VectorIndex) (query : String) (k : Nat) :
    (idx.search query k).length ≤ min k idx.docs.length ∧
      List.Pairwise (fun a b => idx.score query b ≤ idx.score query a)
        (idx.search query k) ∧
      idx.search query 0 = [] := by
  refine ⟨search_length_le_min idx query k, ?_, by simp [VectorIndex.search]⟩
  unfold VectorIndex.search
  rw [List.pairwise_map]
  have hsorted : List.Sorted simGE
      ((idx.docs.map (fun d => (idx.score query d, d))).insertionSort simGE) :=
    List.sorted_insertionSort simGE _
  have htake : List.Pairwise simGE
      (((idx.docs.map (fun d => (idx.score query d, d))).insertionSort
        simGE).take k) :=
    List.Pairwise.sublist (List.take_sublist k _) hsorted
  refine htake.imp_of_mem ?_
  intro a b ha hb hab
  have ha1 := search_scored_mem idx query k a ha
  have hb1 := search_scored_mem idx query k b hb
  rw [← ha1, ← hb1]
  exact hab

/-- C9: every question-answering call retrieves at most TOP_K_RESULTS = 5
documents, so the sources list of every successful answer has length at
most 5. -/
theorem C9_sources_at_most_five
    (gen : String → String) (st : CoordState) (query : String)
    (res : QueryResult) (calls : List ServiceCall)
    (h : ask_question gen st query = (Except.ok res, calls)) :
    res.sources.length ≤ 5 := by
  unfold ask_question at h
  cases hidx : st.vector_index with
  | none =>
    rw [hidx] at h
    simp at h
  | some idx =>
    rw [hidx] at h
    simp only [] at h
    by_cases hemp : (idx.search query TOP_K_RESULTS).isEmpty
    · rw [if_pos hemp] at h
      simp only [Prod.mk.injEq, Except.ok.injEq] at h
      rw [← h.1]
      simp
    · rw [if_neg hemp] at h
      simp only [Prod.mk.injEq, Except.ok.injEq] at h
      rw [← h.1]
      show (generate_rag_response gen query (idx.search query TOP_K_RESULTS)
        st.selected_model).1.2.length ≤ 5
      simp only [generate_rag_response, buildSources]
      rw [List.length_map]
      have hlen := search_length_le_min idx query TOP_K_RESULTS
      unfold TOP_K_RESULTS at hlen ⊢
      omega

/-- Witness for C9 at an index over zero documents. -/
theorem C9_witness :
    ({ answer := noInfoAnswer, sources := [] } : QueryResult).sources.length ≤ 5 :=
  C9_sources_at_most_five (fun _ => "a")
    ⟨some ⟨[], fun _ _ => 0⟩, "llama3", none, 0⟩ "q"
    { answer := noInfoAnswer, sources := [] } [ServiceCall.embedding "q"] rfl

theorem keptIndicesFrom_nil_headers :
    ∀ (rows : List (List String)) (j : Nat),
      keptIndicesFrom (rowQualifiesUnderHeaders []) rows j = [] := by
  intro rows
  induction rows with
  | nil => intro j; rfl
  | cons r rest ih =>
    intro j
    unfold keptIndicesFrom
    rw [if_neg (by simp [rowQualifies_nil_headers])]
    exact ih (j + 1)

theorem ingest_nonempty_result (build : List CsvDocument → VectorIndex)
    (st : CoordState) (folder : String) (files : List SrcFile)
    (h : load_csvs_from_directory files ≠ []) :
    (ingest_csvs build st folder files).1.vector_index =
        some (build (load_csvs_from_directory files)) ∧
      (ingest_csvs build st folder files).2.success = true := by
  unfold ingest_csvs
  simp only []
  rw [if_neg (fun h0 => h (List.length_eq_zero.mp h0))]
  exact ⟨rfl, rfl⟩

theorem ask_question_ok_of_some (gen : String → String) (st : CoordState)
    (query : String) (idx : VectorIndex) (hidx : st.vector_index = some idx) :
    (ask_question gen st query).1 ≠ Except.error notIndexedMsg := by
  unfold ask_question
  rw [hidx]
  simp only []
  by_cases hemp : (idx.search query TOP_K_RESULTS).isEmpty
  · rw [if_pos hemp]
    intro hcontra
    exact Except.noConfusion hcontra
  · rw [if_neg hemp]
    intro hcontra
    exact Except.noConfusion hcontra

/-- C8: every question-answering call made while no Index is installed fails
with the NotIndexed error, with no service request issued; and after an
ingestion of a folder with at least one normalized document succeeds, the
same call passes that check (the result is never the NotIndexed error). -/
theorem C8_not_indexed_guard :
    (∀ (gen : String → String) (st : CoordState) (query : String),
        st.vector_index = none →
        ask_question gen st query = (Except.error notIndexedMsg, [])) ∧
      ∀ (build : List CsvDocument → VectorIndex) (st : CoordState)
        (folder query : String) (files : List SrcFile)
        (gen : String → String),
        load_csvs_from_directory files ≠ [] →
        (ingest_csvs build st folder files).2.success = true ∧
          (ask_question gen (ingest_csvs build st folder files).1 query).1 ≠
            Except.error notIndexedMsg := by
  constructor
  · intro gen st query hnone
    unfold ask_question
    rw [hnone]
  · intro build st folder query files gen h
    obtain ⟨hv, hsucc⟩ := ingest_nonempty_result build st folder files h
    exact ⟨hsucc, ask_question_ok_of_some gen _ query _ hv⟩

/-- Witness for C8: the fresh state rejects a query with NotIndexed, and after
ingesting a one-row CSV directory the same query passes the check. -/
theorem C8_witness :
    ask_question (fun _ => "a") AppState.new "q" =
        (Except.error notIndexedMsg, []) ∧
      ((ingest_csvs (fun _ => ⟨[], fun _ _ => 0⟩) AppState.new "f"
          [SrcFile.csv "t.csv" ["Name"] [["John"]]]).2.success = true ∧
        (ask_question (fun _ => "a")
          (ingest_csvs (fun _ => ⟨[], fun _ _ => 0⟩) AppState.new "f"
            [SrcFile.csv "t.csv" ["Name"] [["John"]]]).1 "q").1 ≠
          Except.error notIndexedMsg) :=
  ⟨C8_not_indexed_guard.1 _ _ _ rfl,
   C8_not_indexed_guard.2 _ _ _ _ _ _ (by decide)⟩

/-- C3 counterexample: in the directory holding the single CSV file a.csv
with header row ["A"] and the one ragged data row ["", "x"], that row has a
non-blank field ("x", beyond the single header position), so the claimed
count is 1; the code materializes no document from it, so documents_ingested
is 0. -/
theorem C3_counterexample :
    (∀ f ∈ [SrcFile.csv "a.csv" ["A"] [["", "x"]]], f.supported = true) ∧
      (load_csvs_from_directory [SrcFile.csv "a.csv" ["A"] [["", "x"]]]).length
        ≠ specRowCount [SrcFile.csv "a.csv" ["A"] [["", "x"]]] := by
  constructor
  · intro f hf
    rw [List.mem_singleton] at hf
    subst hf
    rfl
  · decide

/-- C3 amended: for every directory containing only supported files,
documents_ingested equals the number of rows, summed over all files and
sheets, that have at least one non-blank (post-trim) field in a position
covered by the header row (fields beyond the header positions do not
qualify a row). -/
theorem C3_amended_count (files : List SrcFile)
    (_hsupp : ∀ f ∈ files, f.supported = true) :
    (load_csvs_from_directory files).length = amendedRowCount files := by
  unfold load_csvs_from_directory amendedRowCount
  exact loadFiles_length files 0

/-- Witness for C3 amended on a directory of one CSV file and one
two-sheet-row workbook (one qualifying row, one blank row). -/
theorem C3_amended_witness :
    (load_csvs_from_directory [SrcFile.csv "t.csv" ["Name"] [["John"]],
        SrcFile.excel "b.xlsx" [("S", [["H"], ["v"], [" "]])]]).length =
      amendedRowCount [SrcFile.csv "t.csv" ["Name"] [["John"]],
        SrcFile.excel "b.xlsx" [("S", [["H"], ["v"], [" "]])]] :=
  C3_amended_count _ (by decide)

/-- C5 counterexample: the first data row of the sheet S of b.xlsx is
assigned row_number 2, while the first data row of the CSV file a.csv is
assigned row_number 1 — under the claimed single header-exclusive 1-indexed
rule both would be 1, so the two kinds do not share that rule. -/
theorem C5_counterexample :
    (load_csvs_from_directory
        [SrcFile.excel "b.xlsx" [("S", [["H"], ["v"]])]]).map
        CsvDocument.row_number = [2] ∧
      (load_csvs_from_directory [SrcFile.csv "a.csv" ["H"] [["v"]]]).map
        CsvDocument.row_number = [1] ∧ (2 : Nat) ≠ 1 := by
  exact ⟨by decide, by decide, by decide⟩

/-- C5 amended: for delimited-table files, row_number is 1 plus the 0-based
index of the data row among the data rows (header excluded, so the first data
row is numbered 1); for spreadsheet sheets, row_number is 2 plus that index
(the header row is included in the numbering, so the first data row is
numbered 2). -/
theorem C5_amended_row_numbering :
    (∀ (fn : String) (hs : List String) (rows : List (List String)) (id : Nat),
        (parse_csv_file fn hs rows id).1.map CsvDocument.row_number =
          (keptIndicesFrom (rowQualifiesUnderHeaders hs) rows 0).map
            (fun i => i + 1)) ∧
      ∀ (fn sn : String) (hs : List String) (rows : List (List String))
        (id : Nat),
        (parseSheet fn sn (hs :: rows) id).1.map CsvDocument.row_number =
          (keptIndicesFrom (rowQualifiesUnderHeaders hs) rows 0).map
            (fun i => i + 2) := by
  constructor
  · intro fn hs rows id
    unfold parse_csv_file
    by_cases hh : hs.isEmpty
    · rw [if_pos hh]
      have hnil : hs = [] := List.isEmpty_iff.mp hh
      subst hnil
      rw [keptIndicesFrom_nil_headers]
      rfl
    · rw [if_neg hh]
      exact parseCsvRows_row_numbers fn hs rows 0 id
  · intro fn sn hs rows id
    show (if hs.isEmpty then (([] : List CsvDocument), id)
      else parseExcelRows fn sn hs rows 0 id).1.map CsvDocument.row_number = _
    by_cases hh : hs.isEmpty
    · rw [if_pos hh]
      have hnil : hs = [] := List.isEmpty_iff.mp hh
      subst hnil
      rw [keptIndicesFrom_nil_headers]
      rfl
    · rw [if_neg hh]
      exact parseExcelRows_row_numbers fn sn hs rows 0 id

end CyBee
